import Mathlib

/-!
Verification of the task-list client in `src/src/App.tsx`.

The embedding below translates the data model (`Task`, `State`, `Action`),
the state reducer, the two view projections (`tasksToDo`, `doneTasks`),
the add-task gesture (`handleAddTask`) and the render-mode selection of
the `App` component into Lean. Task ids are JavaScript numbers used only
as integers here, so they are modelled as `Int`; the `error` field of
type `string | null` becomes `Option String`.
-/

namespace TodoApp

/-- `interface Task` from App.tsx lines 7-11. -/
structure Task where
  id : Int
  name : String
  done : Bool
deriving DecidableEq

/-- `interface State` from App.tsx lines 13-17; `error: string | null`
becomes `Option String`. -/
structure State where
  tasks : List Task
  loading : Bool
  error : Option String
deriving DecidableEq

/-- The `Action` union from App.tsx lines 19-24. The extra constructor
`other` carries an arbitrary tag string and models any action object whose
`type` is not one of the five recognised tags; the reducer handles those in
its `default` branch. -/
inductive Action where
  | FETCH_SUCCESS (payload : List Task)
  | FETCH_ERROR (payload : String)
  | TOGGLE_TASK (payload : Int)
  | ADD_TASK (payload : Task)
  | REMOVE_TASK (payload : Int)
  | other (tag : String)

/-- `initialState` from App.tsx lines 26-30. -/
def initialState : State :=
  { tasks := [], loading := true, error := none }

/-- The `reducer` from App.tsx lines 32-55, case for case. The spread
`[...state.tasks, action.payload]` is `state.tasks ++ [payload]`, the
`map`/`filter` calls keep the callbacks of the source. -/
def reducer (state : State) (action : Action) : State :=
  match action with
  | .FETCH_SUCCESS payload => { state with tasks := payload, loading := false }
  | .FETCH_ERROR payload => { state with loading := false, error := some payload }
  | .TOGGLE_TASK payload =>
      { state with
        tasks := state.tasks.map (fun task =>
          if task.id == payload then { task with done := !task.done } else task) }
  | .ADD_TASK payload => { state with tasks := state.tasks ++ [payload] }
  | .REMOVE_TASK payload =>
      { state with tasks := state.tasks.filter (fun task => task.id != payload) }
  | .other _ => state

/-- `tasksToDo` projection, App.tsx line 103. -/
def tasksToDo (tasks : List Task) : List Task :=
  tasks.filter (fun task => !task.done)

/-- `doneTasks` projection, App.tsx line 104. -/
def doneTasks (tasks : List Task) : List Task :=
  tasks.filter (fun task => task.done)

/-- `String.prototype.trim()` as used on App.tsx line 75: strip leading
and trailing whitespace. Written over the character list so that it
evaluates by kernel reduction. -/
def jsTrim (s : String) : String :=
  String.mk ((s.data.dropWhile Char.isWhitespace).reverse.dropWhile Char.isWhitespace).reverse

/-- `handleAddTask` from App.tsx lines 74-83. `Date.now()` is modelled as
the parameter `now`; the result pairs the store state after the dispatch
(if any) with the draft text after the gesture (`setNewTaskName("")` on
dispatch, untouched when the gesture is suppressed). -/
def handleAddTask (state : State) (newTaskName : String) (now : Int) : State × String :=
  if jsTrim newTaskName == "" then (state, newTaskName)
  else
    (reducer state (.ADD_TASK { id := now, name := newTaskName, done := false }), "")

/-- The three mutually exclusive render modes of `App`
(App.tsx lines 89-106). -/
inductive RenderMode where
  | loadingView
  | errorView (msg : String)
  | mainView
deriving DecidableEq

/-- Which branch `App` renders, App.tsx lines 89-106: `if (loading)` first,
then `if (error)` — a JavaScript truthiness test, false for `null` and for
the empty string — else the input plus the two partitioned lists. -/
def render (s : State) : RenderMode :=
  if s.loading then .loadingView
  else
    match s.error with
    | some msg => if msg == "" then .mainView else .errorView msg
    | none => .mainView

/-- Claim C4: FETCH_SUCCESS replaces `tasks` with the payload and sets
`loading` to false; from the initial state, the payload
`[{id:1, name:"Buy milk", done:false}]` yields exactly
`{tasks:[that task], loading:false, error:null}`. -/
theorem fetch_success_replaces_tasks (S : State) (P : List Task) :
    (reducer S (.FETCH_SUCCESS P)).tasks = P ∧
    (reducer S (.FETCH_SUCCESS P)).loading = false ∧
    reducer initialState (.FETCH_SUCCESS [{ id := 1, name := "Buy milk", done := false }]) =
      { tasks := [{ id := 1, name := "Buy milk", done := false }],
        loading := false, error := none } :=
  ⟨rfl, rfl, rfl⟩

/-- Claim C5: FETCH_ERROR sets `error` to the message, sets `loading` to
false and leaves `tasks` unchanged. -/
theorem fetch_error_sets_error (S : State) (m : String) :
    (reducer S (.FETCH_ERROR m)).error = some m ∧
    (reducer S (.FETCH_ERROR m)).loading = false ∧
    (reducer S (.FETCH_ERROR m)).tasks = S.tasks :=
  ⟨rfl, rfl, rfl⟩

/-- Claim C7: an action with any unrecognised tag falls into the
`default` branch of the switch, so the reducer returns the state
unchanged and raises no error. -/
theorem unknown_action_is_identity (S : State) (tag : String)
    (h : tag ∉ ["FETCH_SUCCESS", "FETCH_ERROR", "TOGGLE_TASK", "ADD_TASK", "REMOVE_TASK"]) :
    reducer S (.other tag) = S :=
  rfl

/-- Witness for `unknown_action_is_identity` at a concrete state and tag. -/
theorem unknown_action_is_identity_witness :
    reducer initialState (.other "RESET") = initialState :=
  unknown_action_is_identity initialState "RESET" (by decide)

/-- Claim C1: `tasksToDo` and `doneTasks` form a total, order-preserving
split of `tasks`: their concatenation is a permutation of `tasks`, every
task of `tasks` lies in exactly one of the two projections, and each
projection is a sublist of `tasks` (so it keeps the original relative
order). -/
theorem partition_total_split (S : State) :
    (tasksToDo S.tasks ++ doneTasks S.tasks).Perm S.tasks ∧
    (∀ t ∈ S.tasks,
      (t ∈ tasksToDo S.tasks ∧ t ∉ doneTasks S.tasks) ∨
      (t ∈ doneTasks S.tasks ∧ t ∉ tasksToDo S.tasks)) ∧
    (tasksToDo S.tasks).Sublist S.tasks ∧
    (doneTasks S.tasks).Sublist S.tasks := by
  refine ⟨?_, ?_, List.filter_sublist _, List.filter_sublist _⟩
  · have h := List.filter_append_perm (fun task => !task.done) S.tasks
    simpa [tasksToDo, doneTasks] using h
  · intro t ht
    by_cases hd : t.done
    · exact Or.inr ⟨by simp [doneTasks, List.mem_filter, ht, hd],
        by simp [tasksToDo, List.mem_filter, hd]⟩
    · exact Or.inl ⟨by simp [tasksToDo, List.mem_filter, ht, hd],
        by simp [doneTasks, List.mem_filter, hd]⟩

/-- Claim C2: TOGGLE_TASK is its own inverse — for an id present in the
task list, toggling it twice restores the original tasks list. -/
theorem toggle_task_involutive (S : State) (i : Int)
    (h : i ∈ S.tasks.map Task.id) :
    (reducer (reducer S (.TOGGLE_TASK i)) (.TOGGLE_TASK i)).tasks = S.tasks := by
  clear h
  obtain ⟨ts, l, e⟩ := S
  simp only [reducer]
  induction ts with
  | nil => rfl
  | cons t ts ih =>
    obtain ⟨tid, tname, tdone⟩ := t
    by_cases hc : tid = i
    · simpa [hc] using ih
    · simpa [hc] using ih

/-- Witness for `toggle_task_involutive`: toggling task 1 twice in a
one-task state restores the task list. -/
theorem toggle_task_involutive_witness :
    (reducer (reducer (State.mk [Task.mk 1 "Buy milk" false] false none) (.TOGGLE_TASK 1))
        (.TOGGLE_TASK 1)).tasks = [Task.mk 1 "Buy milk" false] :=
  toggle_task_involutive (State.mk [Task.mk 1 "Buy milk" false] false none) 1 (by decide)

/-- Claim C3: ADD_TASK with a fresh id followed by REMOVE_TASK of that id
returns the tasks list to its pre-ADD contents, same elements in the same
order. -/
theorem add_then_remove (S : State) (t : Task)
    (h : t.id ∉ S.tasks.map Task.id) :
    (reducer (reducer S (.ADD_TASK t)) (.REMOVE_TASK t.id)).tasks = S.tasks := by
  obtain ⟨ts, l, e⟩ := S
  simp only [List.mem_map, not_exists, not_and] at h
  simp only [reducer, List.filter_append]
  have h1 : ts.filter (fun task => task.id != t.id) = ts := by
    refine List.filter_eq_self.mpr ?_
    intro a ha
    simpa using fun hEq => h a ha hEq
  have h2 : [t].filter (fun task => task.id != t.id) = [] := by simp
  rw [h1, h2, List.append_nil]

/-- Witness for `add_then_remove`: adding task 2 to a one-task state and
removing it again restores the original task list. -/
theorem add_then_remove_witness :
    (reducer (reducer (State.mk [Task.mk 1 "Buy milk" false] false none)
        (.ADD_TASK (Task.mk 2 "Walk dog" false))) (.REMOVE_TASK 2)).tasks =
      [Task.mk 1 "Buy milk" false] :=
  add_then_remove (State.mk [Task.mk 1 "Buy milk" false] false none)
    (Task.mk 2 "Walk dog" false) (by decide)

/-- Claim C6: TOGGLE_TASK and REMOVE_TASK are total — when the id does not
occur in the task list, each returns the state unchanged (a silent no-op,
not an error). -/
theorem missing_id_is_noop (S : State) (i : Int)
    (h : i ∉ S.tasks.map Task.id) :
    reducer S (.TOGGLE_TASK i) = S ∧ reducer S (.REMOVE_TASK i) = S := by
  obtain ⟨ts, l, e⟩ := S
  simp only [List.mem_map, not_exists, not_and] at h
  constructor
  · simp only [reducer, State.mk.injEq, and_self, and_true]
    have hfun : ∀ a ∈ ts,
        (fun task => if task.id == i then { task with done := !task.done } else task) a
          = id a := by
      intro a ha
      simp [h a ha]
    rw [List.map_congr_left hfun, List.map_id]
  · simp only [reducer, State.mk.injEq, and_self, and_true]
    refine List.filter_eq_self.mpr ?_
    intro a ha
    simpa using fun hEq => h a ha hEq

/-- Witness for `missing_id_is_noop`: id 2 is absent from a one-task
state, so both actions leave the state untouched. -/
theorem missing_id_is_noop_witness :
    reducer (State.mk [Task.mk 1 "Buy milk" false] false none) (.TOGGLE_TASK 2) =
      State.mk [Task.mk 1 "Buy milk" false] false none ∧
    reducer (State.mk [Task.mk 1 "Buy milk" false] false none) (.REMOVE_TASK 2) =
      State.mk [Task.mk 1 "Buy milk" false] false none :=
  missing_id_is_noop (State.mk [Task.mk 1 "Buy milk" false] false none) 2 (by decide)

/-- Claim C8: once `loading` is false it stays false — no reducer case
ever sets it back to true. -/
theorem loading_stays_false (S : State) (a : Action)
    (h : S.loading = false) :
    (reducer S a).loading = false := by
  cases a <;> simp [reducer, h]

/-- Witness for `loading_stays_false` at a concrete state and action. -/
theorem loading_stays_false_witness :
    (reducer (State.mk [] false none) (.FETCH_ERROR "Network Error")).loading = false :=
  loading_stays_false (State.mk [] false none) (.FETCH_ERROR "Network Error") rfl

/-- Claim C9: the add-task gesture suppresses drafts whose trim is empty
(no dispatch, state and draft unchanged); any other draft is dispatched
untrimmed with done set to false and the draft cleared; and the reducer
itself appends any dispatched task — even one with an empty name — to the
end of `tasks` with no validation. -/
theorem add_gesture_spec (S : State) (draft : String) (now : Int) (t : Task) :
    (jsTrim draft = "" → handleAddTask S draft now = (S, draft)) ∧
    (jsTrim draft ≠ "" →
      handleAddTask S draft now =
        (reducer S (.ADD_TASK { id := now, name := draft, done := false }), "")) ∧
    (reducer S (.ADD_TASK t)).tasks = S.tasks ++ [t] := by
  refine ⟨fun h => ?_, fun h => ?_, rfl⟩
  · simp [handleAddTask, h]
  · simp [handleAddTask, h]

/-- Witness for `add_gesture_spec`: a whitespace-only draft is suppressed,
a non-blank draft is dispatched untrimmed, and a directly dispatched task
with the literal empty name is appended. -/
theorem add_gesture_spec_witness :
    handleAddTask initialState " " 5 = (initialState, " ") ∧
    handleAddTask initialState "milk " 5 =
      (reducer initialState (.ADD_TASK { id := 5, name := "milk ", done := false }), "") ∧
    (reducer initialState (.ADD_TASK (Task.mk 7 "" false))).tasks =
      initialState.tasks ++ [Task.mk 7 "" false] := by
  refine ⟨?_, ?_, ?_⟩
  · exact (add_gesture_spec initialState " " 5 (Task.mk 0 "" false)).1 (by decide)
  · exact (add_gesture_spec initialState "milk " 5 (Task.mk 0 "" false)).2.1 (by decide)
  · exact (add_gesture_spec initialState "x" 0 (Task.mk 7 "" false)).2.2

/-- Claim C10 counterexample: at the state with tasks `[]`, loading false
and error the empty string — a non-null error — FETCH_SUCCESS preserves
the error field, yet the resulting state renders the main task-list view,
not the error panel: the `if (error)` truthiness test of App.tsx line 93
is false for the empty string, so the error panel does not take rendering
precedence there. -/
theorem fetch_success_error_precedence_cex :
    (State.mk [] false (some "")).error ≠ none ∧
    (reducer (State.mk [] false (some ""))
        (.FETCH_SUCCESS [Task.mk 1 "Buy milk" false])).error = some "" ∧
    render (reducer (State.mk [] false (some ""))
        (.FETCH_SUCCESS [Task.mk 1 "Buy milk" false])) = RenderMode.mainView := by
  exact ⟨by simp, rfl, rfl⟩

/-- Claim C10 as amended: FETCH_SUCCESS always leaves the error field
unchanged, and when the stored error is a non-null, NONEMPTY message the
resulting state renders the error panel with that message, taking
precedence over the fetched tasks. (For the empty-string error the field
is still preserved but the task lists render, by JavaScript truthiness.) -/
theorem fetch_success_preserves_error (S : State) (P : List Task) (m : String)
    (h1 : S.error = some m) (h2 : m ≠ "") :
    (reducer S (.FETCH_SUCCESS P)).error = S.error ∧
    render (reducer S (.FETCH_SUCCESS P)) = RenderMode.errorView m := by
  refine ⟨rfl, ?_⟩
  simp [render, reducer, h1, h2]

/-- Witness for `fetch_success_preserves_error` with the stored message
being the nonempty string from the spec scenario. -/
theorem fetch_success_preserves_error_witness :
    (reducer (State.mk [] false (some "Network Error")) (.FETCH_SUCCESS [])).error =
      (State.mk [] false (some "Network Error")).error ∧
    render (reducer (State.mk [] false (some "Network Error")) (.FETCH_SUCCESS [])) =
      RenderMode.errorView "Network Error" :=
  fetch_success_preserves_error (State.mk [] false (some "Network Error")) []
    "Network Error" rfl (by decide)

end TodoApp
